import Mathlib

/-
Verification of the static-file HTTP server in src/py/serve.py against its
natural-language specification. The server-specific code (handle_error, the
mimetypes.add_type calls, parse_args, the __main__ block) is embedded from the
source; standard-library behaviour that the source delegates to (the base
TCP server class, SimpleHTTPRequestHandler, the threading dispatch model) is
modelled from the specification and marked as such in doc comments.
-/

/-- A Python exception class, identified by its name together with the names of
all of its proper ancestors in method-resolution order. Two classes are the
same Python type exactly when the whole structure is equal. -/
structure PyType where
  name : String
  ancestors : List String
deriving DecidableEq, Repr

/-- The built-in BrokenPipeError class. -/
def BrokenPipeError : PyType :=
  ⟨"BrokenPipeError", ["ConnectionError", "OSError", "Exception", "BaseException"]⟩

/-- The built-in ConnectionResetError class. -/
def ConnectionResetError : PyType :=
  ⟨"ConnectionResetError", ["ConnectionError", "OSError", "Exception", "BaseException"]⟩

/-- The built-in ValueError class. -/
def ValueError : PyType := ⟨"ValueError", ["Exception", "BaseException"]⟩

/-- A user-defined proper subclass of BrokenPipeError, used to probe the
suppression check. -/
def ClientDisconnectError : PyType :=
  ⟨"ClientDisconnectError",
   ["BrokenPipeError", "ConnectionError", "OSError", "Exception", "BaseException"]⟩

/-- Python issubclass: t is base itself or base appears among the ancestors
of t. -/
def isSubclass (t base : PyType) : Bool :=
  t == base || t.ancestors.contains base.name

/-- The observable effect of one call to handle_error on the server process:
lines written to standard error, whether the exception is re-raised out of the
serve loop, and whether the server as a whole stops. -/
structure ErrorEffect where
  stderr : List String
  reraises : Bool
  serverFatal : Bool
deriving DecidableEq, Repr

/-- Modelled from the spec: the base class handle_error (the default
error-reporting behaviour the source falls through to with
`super().handle_error(request, client_address)`) logs the error to standard
error, does not re-raise, and is non-fatal to the server. -/
def baseHandleError (exc_type : PyType) : ErrorEffect :=
  ⟨["Exception occurred during processing of request", exc_type.name],
   false, false⟩

/-- The tuple (BrokenPipeError, ConnectionResetError) from src/py/serve.py
line 17. -/
def suppressedTypes : List PyType := [BrokenPipeError, ConnectionResetError]

/-- ResilientTCPServer.handle_error, src/py/serve.py lines 15-19: reads the
current exception type from sys.exc_info; if the type is a member of the tuple
(BrokenPipeError, ConnectionResetError) it returns immediately with no effect,
otherwise it delegates to the base class. Membership in a Python tuple of
classes compares by type identity, embedded here as equality of PyType. -/
def handle_error (exc_type : PyType) : ErrorEffect :=
  if exc_type ∈ suppressedTypes then ⟨[], false, false⟩
  else baseHandleError exc_type

/-- The effect of a connection that raised no exception. -/
def noEffect : ErrorEffect := ⟨[], false, false⟩

/-- Modelled from the spec: the serve loop handles every accepted connection in
turn; a connection either completes normally (none) or raises an exception of
the given type, which is passed to handle_error, and the loop continues with
the remaining connections either way. -/
def serveConnections : List (Option PyType) → List ErrorEffect
  | [] => []
  | conn :: rest =>
      (match conn with
       | none => noEffect
       | some t => handle_error t) :: serveConnections rest

/-- The MIME registry: extension/content-type pairs, most recently added entry
first, consulted before the platform defaults that form the tail of the list. -/
def MimeRegistry : Type := List (String × String)

/-- mimetypes.add_type(type, ext): registers ext as mapping to type, taking
precedence over every earlier entry. Argument order follows the source call
sites `mimetypes.add_type("application/javascript", ".js")`. -/
def add_type (reg : MimeRegistry) (contentType ext : String) : MimeRegistry :=
  (ext, contentType) :: reg

/-- Look an extension up in the registry, returning the most recently added
match if any. -/
def lookupExt (reg : MimeRegistry) (ext : String) : Option String :=
  (List.find? (fun p => p.1 == ext) reg).map Prod.snd

/-- Modelled from the spec: the request handler resolves the content type of a
served file by looking its extension up in the MIME registry, custom entries
taking precedence, falling back to a generic binary type when the extension is
unmapped. -/
def contentTypeFor (reg : MimeRegistry) (ext : String) : String :=
  (lookupExt reg ext).getD "application/octet-stream"

/-- The registry after module load, src/py/serve.py lines 9-10: starting from
the platform default table, exactly two add_type calls are executed, first for
".js", then for ".css". -/
def startupRegistry (platform : MimeRegistry) : MimeRegistry :=
  add_type (add_type platform "application/javascript" ".js") "text/css" ".css"

/-- DEFAULT_PORT, src/py/serve.py line 7. -/
def DEFAULT_PORT : Int := 8000

/-- A command line, as far as the source's parser is concerned: either --port
was omitted or it was supplied with a value string. -/
inductive CliInput
  | noPort
  | portArg (value : String)
deriving DecidableEq, Repr

/-- The option strings declared by parse_args, src/py/serve.py lines 24-29:
a single add_argument call for "--port". -/
def declaredOptions : List String := ["--port"]

/-- Accumulate decimal digits; fails on the first non-digit character. -/
def parseDigits (acc : Nat) : List Char → Option Nat
  | [] => some acc
  | c :: cs =>
      if c.isDigit then parseDigits (acc * 10 + (c.toNat - 48)) cs
      else none

/-- Python int() applied to a command-line string, embedded as an optional
sign followed by one or more decimal digits (whitespace stripping and
underscore separators, which Python also accepts, are not modelled). -/
def pyInt? (s : String) : Option Int :=
  match s.data with
  | [] => none
  | '-' :: [] => none
  | '-' :: cs => (parseDigits 0 cs).map (fun n => -(n : Int))
  | '+' :: [] => none
  | '+' :: cs => (parseDigits 0 cs).map (fun n => (n : Int))
  | cs => (parseDigits 0 cs).map (fun n => (n : Int))

/-- parse_args, src/py/serve.py lines 22-30: the one declared flag --port has
type int and default DEFAULT_PORT, so an omitted flag yields 8000, a value
string that parses as an integer yields that integer with no further range
check, and a non-integer value is rejected with a parse error. Integer
conversion is embedded as pyInt?. -/
def parse_args : CliInput → Except String Int
  | CliInput.noPort => Except.ok DEFAULT_PORT
  | CliInput.portArg v =>
      match pyInt? v with
      | some n => Except.ok n
      | none => Except.error ("argument --port: invalid int value: " ++ v)

/-- An observable step of the process, in program order. -/
inductive Event
  | mimeAdd (contentType ext : String)
  | setReuseAddr
  | bindPort (port : Int)
  | stdout (line : String)
  | serveLoop
  | exitError (code : Nat) (msg : String)
deriving DecidableEq, Repr

def Event.isMimeAdd : Event → Bool
  | Event.mimeAdd _ _ => true
  | _ => false

def Event.isStdout : Event → Bool
  | Event.stdout _ => true
  | _ => false

def Event.isServe : Event → Bool
  | Event.serveLoop => true
  | _ => false

def Event.isSetReuse : Event → Bool
  | Event.setReuseAddr => true
  | _ => false

def Event.isBind : Event → Bool
  | Event.bindPort _ => true
  | _ => false

def Event.isFatalExit : Event → Bool
  | Event.exitError c _ => c != 0
  | _ => false

/-- Whether the TCP bind performed while constructing the server succeeds or
fails because the port is already in use. -/
inductive BindOutcome
  | ok
  | inUse
deriving DecidableEq, Repr

/-- ResilientTCPServer.allow_reuse_address, src/py/serve.py line 13: set as a
class attribute, hence in force before the constructor binds the socket. -/
def ResilientTCPServer.allow_reuse_address : Bool := true

/-- Modelled from the spec: rebinding a port immediately after a previous
instance stopped succeeds exactly when the address-reuse socket option was set
before binding; without it the bind fails with an address-in-use error while
the old socket is still in its teardown state. -/
def restartBindSucceeds (reuseSetBeforeBind : Bool) : Bool := reuseSetBeforeBind

/-- The line printed by src/py/serve.py line 37. -/
def serveLine (port : Int) : String :=
  "Serving on " ++ ("http://localhost:" ++ toString port)

/-- Modelled from the spec: the message of the error raised by the network
stack when the port is already bound by another process. -/
def bindErrorMsg : String := "OSError: [Errno 98] Address already in use"

/-- The __main__ block, src/py/serve.py lines 33-38: parse the arguments (a
parse failure exits with status 2 before anything else happens); construct the
server, which sets the reuse option and then binds (a bind failure propagates
uncaught and, modelled from the spec, terminates the process with a non-zero
status and an error message); print the serving line; enter serve_forever. -/
def mainEvents (input : CliInput) (outcome : BindOutcome) : List Event :=
  match parse_args input with
  | Except.error msg => [Event.exitError 2 msg]
  | Except.ok port =>
      match outcome with
      | BindOutcome.inUse => [Event.setReuseAddr, Event.exitError 1 bindErrorMsg]
      | BindOutcome.ok =>
          [Event.setReuseAddr, Event.bindPort port,
           Event.stdout (serveLine port), Event.serveLoop]

/-- The two module-level add_type calls, src/py/serve.py lines 9-10, executed
at import time. -/
def mimeStartupEvents : List Event :=
  [Event.mimeAdd "application/javascript" ".js", Event.mimeAdd "text/css" ".css"]

/-- Everything the module does when run: the two MIME registrations happen at
load, before the __main__ block runs. -/
def moduleEvents (input : CliInput) (outcome : BindOutcome) : List Event :=
  mimeStartupEvents ++ mainEvents input outcome

/-- An HTTP response as far as the claims need: status code and body bytes. -/
structure HttpResponse where
  status : Nat
  body : List Nat
deriving DecidableEq, Repr

/-- The root directory the handler serves from. -/
inductive RootConfig
  | cwd
  | customDir (d : String)
deriving DecidableEq, Repr

/-- The handler chosen at src/py/serve.py line 35 is SimpleHTTPRequestHandler
with no directory argument, so it serves from the current working directory;
nothing in the source configures any other root. -/
def handlerRoot : RootConfig := RootConfig.cwd

/-- Modelled from the spec: SimpleHTTPRequestHandler answers a GET whose path
resolves to an existing readable file under the served root with status 200
and the file's bytes as body, and answers 404 otherwise. The filesystem is a
map from root-relative paths to the byte contents of readable files. -/
def handleGet (fs : String → Option (List Nat)) (path : String) : HttpResponse :=
  match fs path with
  | some bytes => ⟨200, bytes⟩
  | none => ⟨404, []⟩

/-- How accepted connections are dispatched to handlers. -/
inductive DispatchModel
  | sequential
  | threadPerConnection
deriving DecidableEq, Repr

/-- Modelled from the spec: ResilientTCPServer extends ThreadingTCPServer
(src/py/serve.py line 12), which hands each accepted connection to its own
thread. -/
def ResilientTCPServer.dispatchModel : DispatchModel :=
  DispatchModel.threadPerConnection

/-- An accepted connection in the timing model: when it arrived and how long
its handler runs (a blocked or slow client has a large duration). -/
structure Conn where
  arrival : Nat
  duration : Nat
deriving DecidableEq, Repr

/-- Modelled from the spec: under thread-per-connection dispatch a connection
finishes at its own arrival time plus its own handling duration, since its
handler runs in its own execution context. -/
def threadedFinishTime (c : Conn) : Nat := c.arrival + c.duration

/-- The finish times of a batch of accepted connections under the threaded
dispatch model. -/
def serverFinishTimes (conns : List Conn) : List Nat :=
  conns.map threadedFinishTime

theorem filter_mimeAdd_mainEvents (input : CliInput) (oc : BindOutcome) :
    (mainEvents input oc).filter Event.isMimeAdd = [] := by
  cases input with
  | noPort =>
      cases oc <;>
        simp [mainEvents, parse_args, Event.isMimeAdd, List.filter]
  | portArg v =>
      cases h : pyInt? v with
      | none =>
          simp [mainEvents, parse_args, h, Event.isMimeAdd, List.filter]
      | some n =>
          cases oc <;>
            simp [mainEvents, parse_args, h, Event.isMimeAdd, List.filter]

/-- C1: a connection whose handling raised BrokenPipeError or
ConnectionResetError is suppressed silently by handle_error: nothing is
written to standard error, nothing is re-raised, the server is not stopped,
and the serve loop still handles every connection in its queue. -/
theorem handle_error_suppresses_disconnects :
    handle_error BrokenPipeError = ⟨[], false, false⟩ ∧
    handle_error ConnectionResetError = ⟨[], false, false⟩ ∧
    ∀ conns : List (Option PyType),
      (serveConnections conns).length = conns.length := by
  refine ⟨by decide, by decide, ?_⟩
  intro conns
  induction conns with
  | nil => rfl
  | cons c rest ih => simp [serveConnections, ih]

/-- C2: an exception whose type is neither BrokenPipeError nor
ConnectionResetError falls through to the base class handle_error, which logs
to standard error, and the error is non-fatal: nothing is re-raised and the
server keeps running. -/
theorem handle_error_default_for_other (t : PyType)
    (h1 : t ≠ BrokenPipeError) (h2 : t ≠ ConnectionResetError) :
    handle_error t = baseHandleError t ∧
    (handle_error t).stderr ≠ [] ∧
    (handle_error t).reraises = false ∧
    (handle_error t).serverFatal = false := by
  have hmem : t ∉ suppressedTypes := by
    simp [suppressedTypes, h1, h2]
  simp [handle_error, hmem, baseHandleError]

theorem handle_error_default_for_other_witness :
    handle_error ValueError = baseHandleError ValueError ∧
    (handle_error ValueError).stderr ≠ [] ∧
    (handle_error ValueError).reraises = false ∧
    (handle_error ValueError).serverFatal = false :=
  handle_error_default_for_other ValueError (by decide) (by decide)

/-- C3: module load adds exactly the two MIME entries ".js" to
application/javascript and ".css" to text/css, they are the first two events
of any run (hence precede accepting connections), and they take precedence
over any platform default table, so those extensions always resolve to the
stated content types. -/
theorem mime_registry_startup (platform : MimeRegistry)
    (input : CliInput) (oc : BindOutcome) :
    lookupExt (startupRegistry platform) ".js" = some "application/javascript" ∧
    lookupExt (startupRegistry platform) ".css" = some "text/css" ∧
    contentTypeFor (startupRegistry platform) ".js" = "application/javascript" ∧
    contentTypeFor (startupRegistry platform) ".css" = "text/css" ∧
    (moduleEvents input oc).filter Event.isMimeAdd = mimeStartupEvents ∧
    (moduleEvents input oc).take 2 = mimeStartupEvents := by
  refine ⟨rfl, rfl, rfl, rfl, ?_, rfl⟩
  simp [moduleEvents, List.filter_append, filter_mimeAdd_mainEvents,
        mimeStartupEvents, Event.isMimeAdd, List.filter]

/-- C4: allow_reuse_address is true for ResilientTCPServer, the reuse option
is set before the bind step in every run that binds, and with it a restart on
the same port right after the previous instance stopped binds successfully. -/
theorem reuse_address_set_before_bind (input : CliInput) (port : Int)
    (oc : BindOutcome) (h : parse_args input = Except.ok port) :
    ResilientTCPServer.allow_reuse_address = true ∧
    restartBindSucceeds ResilientTCPServer.allow_reuse_address = true ∧
    (moduleEvents input oc).findIdx Event.isSetReuse <
      (moduleEvents input oc).findIdx Event.isBind := by
  refine ⟨rfl, rfl, ?_⟩
  cases oc <;>
    simp [moduleEvents, mainEvents, h, mimeStartupEvents, List.findIdx_cons,
          Event.isSetReuse, Event.isBind]

theorem reuse_address_set_before_bind_witness :
    ResilientTCPServer.allow_reuse_address = true ∧
    restartBindSucceeds ResilientTCPServer.allow_reuse_address = true ∧
    (moduleEvents CliInput.noPort BindOutcome.ok).findIdx Event.isSetReuse <
      (moduleEvents CliInput.noPort BindOutcome.ok).findIdx Event.isBind :=
  reuse_address_set_before_bind CliInput.noPort 8000 BindOutcome.ok rfl

/-- C5: the CLI declares exactly the one flag --port; omitting it yields port
8000, supplying any string that parses as an integer yields that integer, and
no range check is applied, so out-of-range values such as 70000 and -1 are
accepted by the parser. -/
theorem cli_port_flag (s : String) (n : Int) (h : pyInt? s = some n) :
    declaredOptions = ["--port"] ∧
    parse_args CliInput.noPort = Except.ok 8000 ∧
    parse_args (CliInput.portArg s) = Except.ok n ∧
    parse_args (CliInput.portArg "70000") = Except.ok 70000 ∧
    parse_args (CliInput.portArg "-1") = Except.ok (-1) := by
  refine ⟨rfl, rfl, ?_, rfl, rfl⟩
  simp [parse_args, h]

theorem cli_port_flag_witness :
    declaredOptions = ["--port"] ∧
    parse_args CliInput.noPort = Except.ok 8000 ∧
    parse_args (CliInput.portArg "8001") = Except.ok 8001 ∧
    parse_args (CliInput.portArg "70000") = Except.ok 70000 ∧
    parse_args (CliInput.portArg "-1") = Except.ok (-1) :=
  cli_port_flag "8001" 8001 (by decide)

/-- C6: on a successful startup the full event trace prints the line
"Serving on http://localhost:<port>" to standard output, and that print occurs
strictly before the serve loop is entered. -/
theorem serve_line_before_loop (input : CliInput) (port : Int)
    (h : parse_args input = Except.ok port) :
    moduleEvents input BindOutcome.ok =
      [Event.mimeAdd "application/javascript" ".js",
       Event.mimeAdd "text/css" ".css",
       Event.setReuseAddr,
       Event.bindPort port,
       Event.stdout ("Serving on " ++ ("http://localhost:" ++ toString port)),
       Event.serveLoop] ∧
    (moduleEvents input BindOutcome.ok).findIdx Event.isStdout <
      (moduleEvents input BindOutcome.ok).findIdx Event.isServe := by
  constructor
  · simp [moduleEvents, mainEvents, h, mimeStartupEvents, serveLine]
  · simp [moduleEvents, mainEvents, h, mimeStartupEvents, List.findIdx_cons,
          Event.isStdout, Event.isServe]

theorem serve_line_before_loop_witness :
    moduleEvents CliInput.noPort BindOutcome.ok =
      [Event.mimeAdd "application/javascript" ".js",
       Event.mimeAdd "text/css" ".css",
       Event.setReuseAddr,
       Event.bindPort 8000,
       Event.stdout ("Serving on " ++ ("http://localhost:" ++ toString (8000 : Int))),
       Event.serveLoop] ∧
    (moduleEvents CliInput.noPort BindOutcome.ok).findIdx Event.isStdout <
      (moduleEvents CliInput.noPort BindOutcome.ok).findIdx Event.isServe :=
  serve_line_before_loop CliInput.noPort 8000 rfl

/-- C7: when the bind fails at startup the trace contains a non-zero process
exit carrying a non-empty error message, and contains neither a line on
standard output nor an entry into the serve loop. -/
theorem bind_failure_fatal (input : CliInput) (port : Int)
    (h : parse_args input = Except.ok port) :
    Event.exitError 1 bindErrorMsg ∈ moduleEvents input BindOutcome.inUse ∧
    bindErrorMsg ≠ "" ∧
    (moduleEvents input BindOutcome.inUse).any Event.isFatalExit = true ∧
    (moduleEvents input BindOutcome.inUse).all
      (fun e => !(Event.isStdout e) && !(Event.isServe e)) = true := by
  refine ⟨?_, by decide, ?_, ?_⟩ <;>
    simp [moduleEvents, mainEvents, h, mimeStartupEvents, Event.isFatalExit,
          Event.isStdout, Event.isServe]

theorem bind_failure_fatal_witness :
    Event.exitError 1 bindErrorMsg ∈ moduleEvents CliInput.noPort BindOutcome.inUse ∧
    bindErrorMsg ≠ "" ∧
    (moduleEvents CliInput.noPort BindOutcome.inUse).any Event.isFatalExit = true ∧
    (moduleEvents CliInput.noPort BindOutcome.inUse).all
      (fun e => !(Event.isStdout e) && !(Event.isServe e)) = true :=
  bind_failure_fatal CliInput.noPort 8000 rfl

/-- C8: a GET for any path that the filesystem maps to readable file contents
returns status 200 with exactly those bytes as body, and the served root is
the current working directory with no other root configurable. -/
theorem get_existing_file_200 (fs : String → Option (List Nat))
    (p : String) (b : List Nat) (h : fs p = some b) :
    (handleGet fs p).status = 200 ∧
    (handleGet fs p).body = b ∧
    handlerRoot = RootConfig.cwd := by
  simp [handleGet, h, handlerRoot]

def demoFs : String → Option (List Nat) :=
  fun p =>
    if p = "index.html" then some [60, 104, 49, 62, 104, 105, 60, 47, 104, 49, 62]
    else none

theorem get_existing_file_200_witness :
    (handleGet demoFs "index.html").status = 200 ∧
    (handleGet demoFs "index.html").body =
      [60, 104, 49, 62, 104, 105, 60, 47, 104, 49, 62] ∧
    handlerRoot = RootConfig.cwd :=
  get_existing_file_200 demoFs "index.html"
    [60, 104, 49, 62, 104, 105, 60, 47, 104, 49, 62] (by decide)

/-- C9: dispatch is thread-per-connection; each connection's finish time is a
function of that connection alone (arrival plus its own duration), so changing
one connection's duration - a blocked or slow client - leaves every other
connection's finish time unchanged. -/
theorem thread_per_connection_isolation (conns : List Conn) (i j : Nat)
    (c : Conn) (hij : i ≠ j) :
    ResilientTCPServer.dispatchModel = DispatchModel.threadPerConnection ∧
    (serverFinishTimes conns)[j]? = (conns[j]?).map threadedFinishTime ∧
    (serverFinishTimes (conns.set i c))[j]? = (serverFinishTimes conns)[j]? := by
  refine ⟨rfl, ?_, ?_⟩
  · simp [serverFinishTimes]
  · simp [serverFinishTimes, List.getElem?_set_ne hij]

theorem thread_per_connection_isolation_witness :
    ResilientTCPServer.dispatchModel = DispatchModel.threadPerConnection ∧
    (serverFinishTimes [⟨0, 5⟩, ⟨1, 7⟩])[0]? =
      (([⟨0, 5⟩, ⟨1, 7⟩] : List Conn)[0]?).map threadedFinishTime ∧
    (serverFinishTimes (([⟨0, 5⟩, ⟨1, 7⟩] : List Conn).set 1 ⟨1, 1000000⟩))[0]? =
      (serverFinishTimes [⟨0, 5⟩, ⟨1, 7⟩])[0]? :=
  thread_per_connection_isolation [⟨0, 5⟩, ⟨1, 7⟩] 1 0 ⟨1, 1000000⟩ (by decide)

/-- C10: the suppression check compares the exception's exact type against
BrokenPipeError and ConnectionResetError by tuple membership, so an exception
whose type is a proper subclass of either is not suppressed and falls through
to the base class, which logs it. -/
theorem handle_error_exact_type_match (t : PyType)
    (hsub : isSubclass t BrokenPipeError = true ∨
            isSubclass t ConnectionResetError = true)
    (h1 : t ≠ BrokenPipeError) (h2 : t ≠ ConnectionResetError) :
    handle_error t = baseHandleError t ∧ (handle_error t).stderr ≠ [] := by
  have hmem : t ∉ suppressedTypes := by
    simp [suppressedTypes, h1, h2]
  simp [handle_error, hmem, baseHandleError]

theorem handle_error_exact_type_match_witness :
    handle_error ClientDisconnectError = baseHandleError ClientDisconnectError ∧
    (handle_error ClientDisconnectError).stderr ≠ [] :=
  handle_error_exact_type_match ClientDisconnectError
    (Or.inl (by decide)) (by decide) (by decide)
